import Mathlib

/-!
Shallow embedding of `src/pyeto_crop/fao_crop.py` (FAO-56 Penman-Monteith
crop-evapotranspiration library) and verification of its specification.

Modelling conventions:
* Python scalar floats are embedded as exact rationals (`ℚ`) where the code
  uses only field operations, and as reals (`ℝ`) where `np.log` appears.
* A Python function that can raise is embedded as `Except PyExc _`.
  Plain Python float division by zero raises `ZeroDivisionError`; the code
  never defines or raises any `DomainError`, but the constructor is kept in
  `PyExc` so that spec statements about it are expressible.
* `np.log` applied to a scalar returns a `numpy.float64`: for a negative
  argument it silently yields NaN, for zero it yields -inf, and subsequent
  `numpy.float64` arithmetic (including division by zero) never raises.
  `PyVal` with `npLog`, `PyVal.mul`, `PyVal.divr` model exactly the numpy
  operations occurring in `ra`.
-/

namespace FaoCrop

/-- Python exception kinds relevant to this library: `ZeroDivisionError`
raised by plain float division by zero, and the `DomainError` the design
documents describe (never produced anywhere in the code). -/
inductive PyExc
  | zeroDivisionError
  | domainError
deriving DecidableEq

/-- Source: `lat(t) = 2.501 - (2.361 * 10**(-3)) * t`. Latent heat of
vaporization; a total function, no operation in it can raise. -/
def lat (t : ℚ) : ℚ :=
  2.501 - (2.361 * (10 : ℚ) ^ (-3 : ℤ)) * t

/-- Source: `pa(pres, t) = pres / ((1.01 * (t + 273)) * 0.287)`. Plain float
division: raises `ZeroDivisionError` exactly when the denominator is zero. -/
def pa (pres t : ℚ) : Except PyExc ℚ :=
  if (1.01 * (t + 273)) * 0.287 = 0 then .error .zeroDivisionError
  else .ok (pres / ((1.01 * (t + 273)) * 0.287))

/-- A `numpy.float64` value: a finite real, NaN, or a signed infinity. -/
inductive PyVal
  | val (x : ℝ)
  | nan
  | inf
  | ninf

/-- `np.log` on a scalar: the real logarithm for a positive argument,
-inf at zero, NaN (with only a runtime warning) for a negative argument. -/
noncomputable def npLog (x : ℝ) : PyVal :=
  if 0 < x then .val (Real.log x)
  else if x = 0 then .ninf
  else .nan

/-- IEEE-754 multiplication of two `numpy.float64` values (never raises). -/
noncomputable def PyVal.mul : PyVal → PyVal → PyVal
  | .val a, .val b => .val (a * b)
  | .nan, _ => .nan
  | _, .nan => .nan
  | .inf, .val b => if 0 < b then .inf else if b < 0 then .ninf else .nan
  | .val a, .inf => if 0 < a then .inf else if a < 0 then .ninf else .nan
  | .ninf, .val b => if 0 < b then .ninf else if b < 0 then .inf else .nan
  | .val a, .ninf => if 0 < a then .ninf else if a < 0 then .inf else .nan
  | .inf, .inf => .inf
  | .inf, .ninf => .ninf
  | .ninf, .inf => .ninf
  | .ninf, .ninf => .inf

/-- IEEE-754 division of a `numpy.float64` by a finite float: numpy emits a
warning on a zero divisor but returns ±inf or NaN, never raising. -/
noncomputable def PyVal.divr : PyVal → ℝ → PyVal
  | .val a, r =>
      if r = 0 then (if 0 < a then .inf else if a < 0 then .ninf else .nan)
      else .val (a / r)
  | .nan, _ => .nan
  | .inf, r => if 0 ≤ r then .inf else .ninf
  | .ninf, r => if 0 ≤ r then .ninf else .inf

/-- Source: `ra(d, zom, zoh, ws, h=0.12, zh=2, zm=10, k=0.41)` returns
`(np.log((zm - d) / zom) * np.log((zh - d) / zoh)) / (k**2 * ws)`.
The two plain-float divisions `(zm - d) / zom` and `(zh - d) / zoh` raise
`ZeroDivisionError` on a zero denominator (evaluated left to right); every
operation after `np.log` is `numpy.float64` arithmetic and never raises. -/
noncomputable def ra (d zom zoh ws h zh zm k : ℝ) : Except PyExc PyVal :=
  if zom = 0 then .error .zeroDivisionError
  else if zoh = 0 then .error .zeroDivisionError
  else .ok (((npLog ((zm - d) / zom)).mul (npLog ((zh - d) / zoh))).divr (k ^ 2 * ws))

/-- Source: `d(h=0.12) = 2/3 * h`. Zero plane displacement height. -/
def d (h : ℚ) : ℚ := 2 / 3 * h

/-- Source: `zom(h=0.12) = 0.123 * h`. Momentum roughness length. -/
def zom (h : ℚ) : ℚ := 0.123 * h

/-- Source: `zoh(zom) = 0.1 * zom`. Heat/vapour roughness length. -/
def zoh (zom : ℚ) : ℚ := 0.1 * zom

/-- Source: `rs(LAIactive, rl) = rl / LAIactive`. Plain float division:
raises `ZeroDivisionError` exactly when `LAIactive` is zero. -/
def rs (LAIactive rl : ℚ) : Except PyExc ℚ :=
  if LAIactive = 0 then .error .zeroDivisionError
  else .ok (rl / LAIactive)

/-- Source: `LAIactive(LAI) = 0.5 * LAI`. Active (sunlit) leaf area index. -/
def LAIactive (LAI : ℚ) : ℚ := 0.5 * LAI

/-- Source: `LAI(h=0.12) = 24 * h`. Leaf area index of clipped grass. -/
def LAI (h : ℚ) : ℚ := 24 * h

/-- Source of `penman_monteith`:
`a1 = delta_svp * (net_rad - shf)/86400 + pa * cp * ((svp - avp) / (ra))`;
`a2 = delta_svp + psy * (1 + (rs / ra))`; `a3 = 1 / lat`;
returns `(a1 / a2) * a3 * 86400`. Plain float divisions raise
`ZeroDivisionError` in evaluation order: first `(svp - avp) / ra` in the
`a1` line when `ra = 0`, then `1 / lat` when `lat = 0`, then `a1 / a2`
when `a2 = 0`. -/
def penman_monteith (lat net_rad t ws svp avp delta_svp d psy ra pa pres rs cp shf : ℚ) :
    Except PyExc ℚ :=
  if ra = 0 then .error .zeroDivisionError
  else if lat = 0 then .error .zeroDivisionError
  else
    let a1 := delta_svp * (net_rad - shf) / 86400 + pa * cp * ((svp - avp) / ra)
    let a2 := delta_svp + psy * (1 + (rs / ra))
    let a3 := 1 / lat
    if a2 = 0 then .error .zeroDivisionError
    else .ok ((a1 / a2) * a3 * 86400)

/-- Default of the parameter `h` in the def line of `ra` (`h=0.12`);
`none` would mean the parameter is required. -/
def ra_h_default : Option ℝ := some 0.12

/-- Default of the parameter `zh` in the def line of `ra` (`zh=2`). -/
def ra_zh_default : Option ℝ := some 2

/-- Default of the parameter `zm` in the def line of `ra` (`zm=10`). -/
def ra_zm_default : Option ℝ := some 10

/-- Default of the parameter `k` in the def line of `ra` (`k=0.41`). -/
def ra_k_default : Option ℝ := some 0.41

/-- Default of the parameter `h` in the def line of `d` (`h=0.12`). -/
def d_h_default : Option ℚ := some 0.12

/-- Default of the parameter `h` in the def line of `zom` (`h=0.12`). -/
def zom_h_default : Option ℚ := some 0.12

/-- Default of the parameter `h` in the def line of `LAI` (`h=0.12`). -/
def LAI_h_default : Option ℚ := some 0.12

/-- Default of the parameter `rl` in the def line of `rs`: the source reads
`def rs(LAIactive, rl):`, so `rl` has no default and is required. -/
def rs_rl_default : Option ℚ := none

/-- Default of the parameter `rs` in the def line of `penman_monteith`
(`rs=78`). -/
def penman_monteith_rs_default : Option ℚ := some 78

/-- Default of the parameter `cp` in the def line of `penman_monteith`
(`cp=0.001013`). -/
def penman_monteith_cp_default : Option ℚ := some 0.001013

/-- Default of the parameter `shf` in the def line of `penman_monteith`
(`shf=0.0`). -/
def penman_monteith_shf_default : Option ℚ := some 0

/-- C1: with `ra ≠ 0`, `lat ≠ 0` and `delta_svp + psy*(1 + rs/ra) ≠ 0`,
`penman_monteith` returns exactly `(term1/term2) * (1/lat) * 86400` with
`term1 = delta_svp*(net_rad - shf)/86400 + pa*cp*(svp - avp)/ra` and
`term2 = delta_svp + psy*(1 + rs/ra)`. -/
theorem penman_monteith_closed_form
    (lat net_rad t ws svp avp delta_svp d psy ra pa pres rs cp shf : ℚ)
    (hra : ra ≠ 0) (hlat : lat ≠ 0)
    (ht2 : delta_svp + psy * (1 + rs / ra) ≠ 0) :
    penman_monteith lat net_rad t ws svp avp delta_svp d psy ra pa pres rs cp shf =
      Except.ok ((delta_svp * (net_rad - shf) / 86400 + pa * cp * (svp - avp) / ra) /
        (delta_svp + psy * (1 + rs / ra)) * (1 / lat) * 86400) := by
  unfold penman_monteith
  rw [if_neg hra, if_neg hlat, if_neg ht2]
  exact congrArg Except.ok (by ring)

/-- C1 witness: the closed-form identity at the literal inputs of the
reference scenario (`lat=2.45, net_rad=15, t=20, ws=2, svp=2.4, avp=1.4,
delta_svp=0.15, psy=0.067, ra=50, pa=1.2, pres=101.3, rs=70, cp=0.001013,
shf=0`, with the unused displacement height set to `0.08`). -/
theorem penman_monteith_closed_form_witness :
    penman_monteith 2.45 15 20 2 2.4 1.4 0.15 0.08 0.067 50 1.2 101.3 70 0.001013 0 =
      Except.ok ((0.15 * (15 - 0) / 86400 + 1.2 * 0.001013 * (2.4 - 1.4) / 50) /
        (0.15 + 0.067 * (1 + 70 / 50)) * (1 / 2.45) * 86400) :=
  penman_monteith_closed_form 2.45 15 20 2 2.4 1.4 0.15 0.08 0.067 50 1.2 101.3 70 0.001013 0
    (by norm_num) (by norm_num) (by norm_num)

/-- C3: for every `h ≥ 0` the canopy-geometry operations are the stated
linear transforms, and `h = 0` yields all-zero geometry (the functions are
total, so no error can occur). -/
theorem canopy_geometry_linear (h : ℚ) (hh : 0 ≤ h) :
    (zom h = 0.123 * h ∧ d h = 2 / 3 * h ∧ zoh (zom h) = 0.1 * zom h ∧
      LAI h = 24 * h ∧ LAIactive (LAI h) = 0.5 * LAI h) ∧
    (zom 0 = 0 ∧ d 0 = 0 ∧ zoh (zom 0) = 0 ∧ LAI 0 = 0 ∧ LAIactive (LAI 0) = 0) := by
  refine ⟨⟨rfl, rfl, rfl, rfl, rfl⟩, ?_, ?_, ?_, ?_, ?_⟩ <;>
    norm_num [zom, d, zoh, LAI, LAIactive]

/-- C3 witness: the geometry identities at the default crop height 0.12. -/
theorem canopy_geometry_linear_witness :
    (zom 0.12 = 0.123 * 0.12 ∧ d 0.12 = 2 / 3 * 0.12 ∧
      zoh (zom 0.12) = 0.1 * zom 0.12 ∧ LAI 0.12 = 24 * 0.12 ∧
      LAIactive (LAI 0.12) = 0.5 * LAI 0.12) ∧
    (zom 0 = 0 ∧ d 0 = 0 ∧ zoh (zom 0) = 0 ∧ LAI 0 = 0 ∧ LAIactive (LAI 0) = 0) :=
  canopy_geometry_linear 0.12 (by norm_num)

/-- C7: `lat` returns exactly `2.501 - 0.002361*t` for every `t`, and for
every `pres > 0` and `t > -273` the air density `pa` returns exactly
`pres / (1.01*(t + 273)*0.287)`. -/
theorem air_thermo_closed_form :
    (∀ t : ℚ, lat t = 2.501 - 0.002361 * t) ∧
    (∀ pres t : ℚ, 0 < pres → -273 < t →
      pa pres t = Except.ok (pres / (1.01 * (t + 273) * 0.287))) := by
  constructor
  · intro t
    unfold lat
    norm_num
  · intro pres t _ ht
    unfold pa
    rw [if_neg]
    intro hzero
    rcases mul_eq_zero.mp hzero with hz | hz
    · rcases mul_eq_zero.mp hz with hz | hz
      · norm_num at hz
      · linarith
    · norm_num at hz

/-- C7 witness: both closed forms at `t = 20`, `pres = 101.3`. -/
theorem air_thermo_closed_form_witness :
    lat 20 = 2.501 - 0.002361 * 20 ∧
    pa 101.3 20 = Except.ok (101.3 / (1.01 * (20 + 273) * 0.287)) :=
  ⟨air_thermo_closed_form.1 20,
   air_thermo_closed_form.2 101.3 20 (by norm_num) (by norm_num)⟩

/-- C10: `penman_monteith` never reads its parameters `t`, `ws`, `d` and
`pres`: two calls agreeing on all other arguments return the same result. -/
theorem penman_monteith_ignores_t_ws_d_pres
    (lat net_rad t ws svp avp delta_svp d psy ra pa pres rs cp shf
      t' ws' d' pres' : ℚ) :
    penman_monteith lat net_rad t ws svp avp delta_svp d psy ra pa pres rs cp shf =
      penman_monteith lat net_rad t' ws' svp avp delta_svp d' psy ra pa pres' rs cp shf :=
  rfl

/-- C4 counterexample: at `LAIactive = -1 ≤ 0` the surface resistance
returns the ordinary value `-100` instead of raising any error, refuting
the claim that every `LAIactive ≤ 0` raises a `DomainError`. -/
theorem rs_negative_input_returns_value :
    rs (-1) 100 = Except.ok (-100) := by
  unfold rs
  rw [if_neg (by norm_num)]
  norm_num

/-- C4 amended: `rs` returns `rl / LAIactive` for every `LAIactive ≠ 0`
(including negative values, silently) and raises `ZeroDivisionError`, not
a `DomainError`, exactly when `LAIactive = 0`. -/
theorem rs_division_semantics (L rl : ℚ) :
    (L ≠ 0 → rs L rl = Except.ok (rl / L)) ∧
    (L = 0 → rs L rl = Except.error PyExc.zeroDivisionError) := by
  constructor
  · intro hL
    unfold rs
    rw [if_neg hL]
  · intro hL
    unfold rs
    rw [if_pos hL]

/-- C4 amended witness: `rs` at `LAIactive = 1.44`, `rl = 100` returns the
quotient, and at `LAIactive = 0` raises `ZeroDivisionError`. -/
theorem rs_division_semantics_witness :
    rs 1.44 100 = Except.ok (100 / 1.44) ∧
    rs 0 100 = Except.error PyExc.zeroDivisionError :=
  ⟨(rs_division_semantics 1.44 100).1 (by norm_num),
   (rs_division_semantics 0 100).2 rfl⟩

/-- C6 counterexample: at `ra = 0` (all other inputs the reference-scenario
literals) `penman_monteith` raises `ZeroDivisionError` from the plain float
division `(svp - avp) / ra`, not the claimed `DomainError`. -/
theorem penman_monteith_ra_zero_not_domain_error :
    penman_monteith 2.45 15 20 2 2.4 1.4 0.15 0.08 0.067 0 1.2 101.3 70 0.001013 0 ≠
      Except.error PyExc.domainError := by
  unfold penman_monteith
  rw [if_pos rfl]
  intro hcontra
  exact PyExc.noConfusion (Except.error.inj hcontra)

/-- C6 amended: for every input with `ra = 0`, `penman_monteith` fails, but
with the built-in `ZeroDivisionError` (no `DomainError` exists in the
code), rather than computing a result or propagating infinity. -/
theorem penman_monteith_ra_zero_zero_division
    (lat net_rad t ws svp avp delta_svp d psy ra pa pres rs cp shf : ℚ)
    (hra : ra = 0) :
    penman_monteith lat net_rad t ws svp avp delta_svp d psy ra pa pres rs cp shf =
      Except.error PyExc.zeroDivisionError := by
  unfold penman_monteith
  rw [if_pos hra]

/-- C6 amended witness: the failure at `ra = 0` on concrete literals. -/
theorem penman_monteith_ra_zero_zero_division_witness :
    penman_monteith 2.45 15 20 2 2.4 1.4 0.15 0.08 0.067 0 1.2 101.3 70 0.001013 0 =
      Except.error PyExc.zeroDivisionError :=
  penman_monteith_ra_zero_zero_division
    2.45 15 20 2 2.4 1.4 0.15 0.08 0.067 0 1.2 101.3 70 0.001013 0 rfl

/-- C8 counterexample: at `pres = -5 ≤ 0` (and ordinary `t = 20`) the air
density returns an ordinary (negative) value instead of raising the claimed
`DomainError`. -/
theorem pa_nonpositive_pressure_returns_value :
    pa (-5) 20 = Except.ok ((-5) / (1.01 * (20 + 273) * 0.287)) := by
  unfold pa
  rw [if_neg (by norm_num)]

/-- C8 amended: `lat` is total and returns `2.501 - 0.002361*t` for every
`t`, even when that value is nonpositive (no error path exists); `pa`
raises `ZeroDivisionError` exactly when `t = -273`, and for every other
`t` — including `t < -273` and any `pres ≤ 0` — returns the quotient
`pres / (1.01*(t + 273)*0.287)` without error. -/
theorem air_thermo_error_semantics :
    (∀ t : ℚ, lat t = 2.501 - 0.002361 * t) ∧
    (∀ pres t : ℚ,
      (t = -273 → pa pres t = Except.error PyExc.zeroDivisionError) ∧
      (t ≠ -273 → pa pres t = Except.ok (pres / (1.01 * (t + 273) * 0.287)))) := by
  constructor
  · intro t
    unfold lat
    norm_num
  · intro pres t
    constructor
    · intro ht
      unfold pa
      rw [if_pos (by rw [ht]; norm_num)]
    · intro ht
      unfold pa
      rw [if_neg]
      intro hzero
      rcases mul_eq_zero.mp hzero with hz | hz
      · rcases mul_eq_zero.mp hz with hz | hz
        · norm_num at hz
        · exact ht (by linarith)
      · norm_num at hz

/-- C8 amended witness: `lat` at the physically invalid `t = 1100` returns
its (negative) linear value, `pa` at `t = -273` raises `ZeroDivisionError`,
and `pa` at `t = -300 < -273` still returns a value. -/
theorem air_thermo_error_semantics_witness :
    lat 1100 = 2.501 - 0.002361 * 1100 ∧
    pa 101.3 (-273) = Except.error PyExc.zeroDivisionError ∧
    pa 101.3 (-300) = Except.ok (101.3 / (1.01 * (-300 + 273) * 0.287)) :=
  ⟨air_thermo_error_semantics.1 1100,
   (air_thermo_error_semantics.2 101.3 (-273)).1 rfl,
   (air_thermo_error_semantics.2 101.3 (-300)).2 (by norm_num)⟩

/-- C9 counterexample: the source line `def rs(LAIactive, rl):` gives `rl`
no default, so `surfaceResistance` cannot be called with `rl` omitted,
refuting the claimed default `rl = 100`. -/
theorem rs_rl_default_missing : rs_rl_default ≠ some 100 := by
  unfold rs_rl_default
  exact fun hcontra => Option.noConfusion hcontra

/-- C9 amended: all the listed defaults are present in the def lines —
`h = 0.12` in `d`, `zom`, `LAI` and `ra`; `zh = 2`, `zm = 10`, `k = 0.41`
in `ra`; `rs = 78`, `cp = 0.001013`, `shf = 0` in `penman_monteith` —
except that `rl` in `rs` has no default at all (it is a required
parameter; the docstring merely notes `rl = 100` under well-watered
conditions). -/
theorem defaults_as_listed :
    d_h_default = some 0.12 ∧ zom_h_default = some 0.12 ∧
    LAI_h_default = some 0.12 ∧ ra_h_default = some 0.12 ∧
    ra_zh_default = some 2 ∧ ra_zm_default = some 10 ∧
    ra_k_default = some 0.41 ∧ penman_monteith_rs_default = some 78 ∧
    penman_monteith_cp_default = some 0.001013 ∧
    penman_monteith_shf_default = some 0 ∧ rs_rl_default = none :=
  ⟨rfl, rfl, rfl, rfl, rfl, rfl, rfl, rfl, rfl, rfl, rfl⟩

/-- C2: whenever `zm - d > 0`, `zh - d > 0`, `zom > 0`, `zoh > 0`, `ws > 0`
(and the fixed von Kármán constant is nonzero, as the claimed formula
presupposes), `ra` returns exactly
`ln((zm - d)/zom) * ln((zh - d)/zoh) / (k^2 * ws)`. -/
theorem ra_closed_form (d zom zoh ws h zh zm k : ℝ)
    (h1 : 0 < zm - d) (h2 : 0 < zh - d) (h3 : 0 < zom) (h4 : 0 < zoh)
    (h5 : 0 < ws) (h6 : k ≠ 0) :
    ra d zom zoh ws h zh zm k =
      Except.ok (PyVal.val
        (Real.log ((zm - d) / zom) * Real.log ((zh - d) / zoh) / (k ^ 2 * ws))) := by
  unfold ra
  rw [if_neg (ne_of_gt h3), if_neg (ne_of_gt h4)]
  have harg1 : 0 < (zm - d) / zom := div_pos h1 h3
  have harg2 : 0 < (zh - d) / zoh := div_pos h2 h4
  have hden : k ^ 2 * ws ≠ 0 := mul_ne_zero (pow_ne_zero 2 h6) (ne_of_gt h5)
  simp only [npLog, if_pos harg1, if_pos harg2, PyVal.mul, PyVal.divr, if_neg hden]

/-- C2 witness: the closed form at the reference scenario `h = 0.12`
(`d = 0.08`, `zom = 0.01476`, `zoh = 0.001476`), `ws = 2`, `zh = 2`,
`zm = 10`, `k = 0.41`; exact equality implies the claimed 1e-9 relative
tolerance. -/
theorem ra_closed_form_witness :
    ra 0.08 0.01476 0.001476 2 0.12 2 10 0.41 =
      Except.ok (PyVal.val
        (Real.log ((10 - 0.08) / 0.01476) * Real.log ((2 - 0.08) / 0.001476) /
          (0.41 ^ 2 * 2))) :=
  ra_closed_form 0.08 0.01476 0.001476 2 0.12 2 10 0.41
    (by norm_num) (by norm_num) (by norm_num) (by norm_num) (by norm_num)
    (by norm_num)

/-- C5 counterexample: at `ws = 0` (with the reference geometry, where both
logarithms are positive) `ra` silently returns the `numpy` value `inf`
instead of raising the claimed `DomainError`. -/
theorem ra_zero_ws_returns_infinity :
    ra 0.08 0.01476 0.001476 0 0.12 2 10 0.41 = Except.ok PyVal.inf := by
  unfold ra
  rw [if_neg (by norm_num), if_neg (by norm_num)]
  have harg1 : (0 : ℝ) < (10 - 0.08) / 0.01476 := by norm_num
  have harg2 : (0 : ℝ) < (2 - 0.08) / 0.001476 := by norm_num
  have hl1 : 0 < Real.log ((10 - 0.08) / 0.01476) := Real.log_pos (by norm_num)
  have hl2 : 0 < Real.log ((2 - 0.08) / 0.001476) := Real.log_pos (by norm_num)
  simp only [npLog, if_pos harg1, if_pos harg2, PyVal.mul, PyVal.divr]
  rw [if_pos (by norm_num : (0.41 : ℝ) ^ 2 * 0 = 0), if_pos (mul_pos hl1 hl2)]

/-- C5 amended: on the degenerate inputs the claim lists (`zm - d ≤ 0`,
`zh - d ≤ 0`, or `ws = 0`) `ra` raises no error at all as long as the two
plain-float divisors `zom` and `zoh` are nonzero: it returns some `numpy`
float (NaN, a signed infinity, or a finite value), per numpy semantics;
only `zom = 0` or `zoh = 0` raise, and then `ZeroDivisionError`, never a
`DomainError`. -/
theorem ra_degenerate_inputs_return_value (d zom zoh ws h zh zm k : ℝ)
    (h1 : zom ≠ 0) (h2 : zoh ≠ 0)
    (h3 : zm - d ≤ 0 ∨ zh - d ≤ 0 ∨ ws = 0) :
    ∃ v, ra d zom zoh ws h zh zm k = Except.ok v := by
  unfold ra
  rw [if_neg h1, if_neg h2]
  exact ⟨_, rfl⟩

/-- C5 amended witness: at `d = 2.5` the humidity-measurement logarithm
argument is negative (`zh - d = -0.5 ≤ 0`), yet `ra` returns a value. -/
theorem ra_degenerate_inputs_return_value_witness :
    ∃ v, ra 2.5 0.01476 0.001476 2 0.12 2 10 0.41 = Except.ok v :=
  ra_degenerate_inputs_return_value 2.5 0.01476 0.001476 2 0.12 2 10 0.41
    (by norm_num) (by norm_num) (Or.inr (Or.inl (by norm_num)))

end FaoCrop
